import Mathlib

/-!
Verification development for `Automate_email/automate_email.py`.

The script reads contact rows from a CSV, calls an external text-generation
endpoint once per valid row (with a bounded retry/backoff loop), and collects
successful generations into an output list together with summary counters.

We embed the script shallowly:

* a CSV row becomes a `Row` of optional string fields (`none` models a
  missing column or an NaN cell, `some ""` an empty cell);
* the external endpoint is an oracle `call : Nat → CallResult` giving, for
  each attempt index, either the message content or the exception text;
* `generate_email` returns a `GenOutcome` recording the returned value, the
  number of endpoint attempts performed, and the list of backoff sleeps;
* the per-row loop of `main` becomes a fold over the (possibly limited) row
  list carrying `RunState`: the `total_contacts` / `successful_emails`
  counters, the `output_data` list, and instrumentation counters for client
  invocations, endpoint attempts, and the 0.5-second throttle sleeps.
-/

set_option linter.unusedVariables false
set_option linter.unnecessarySeqFocus false

/-- Result of one attempt against the external generation endpoint:
either the message content, or the text of the raised exception. -/
inductive CallResult where
  | ok (content : String)
  | err (msg : String)
deriving DecidableEq, Repr

/-- Python truthiness/NaN test used by the script on a field value:
`not contact_name or pd.isna(contact_name)`.  `none` models a missing or
NaN cell, `some ""` the empty string. -/
def isBlank : Option String → Bool
  | none => true
  | some s => s == ""

/-- Python `s.startswith(p)`: `p` is a character-wise prefix of `s`. -/
def py_startswith (s p : String) : Bool :=
  p.data.isPrefixOf s.data

/-- Python `s.strip()`: drop leading and trailing whitespace characters. -/
def py_strip (s : String) : String :=
  ⟨((s.data.dropWhile Char.isWhitespace).reverse.dropWhile Char.isWhitespace).reverse⟩

/-- Observable outcome of one `generate_email` invocation: the returned value
(`none` models Python `None`), how many endpoint attempts were made, and the
backoff sleeps (in seconds) in order. -/
structure GenOutcome where
  result : Option String
  calls : Nat
  sleeps : List Nat
deriving DecidableEq, Repr

/-- `max_retries = 3` in `generate_email`. -/
def max_retries : Nat := 3

/-- The `for attempt in range(max_retries)` loop of `generate_email`,
recursing on the number of attempts remaining.  `attempt` is the current
attempt index and `retry_delay` the current backoff delay; on failure with
attempts left the loop sleeps `retry_delay` and doubles it, and on the final
failure it returns the error-marker string built from the exception text. -/
def attemptFrom (call : Nat → CallResult) : Nat → Nat → Nat → GenOutcome
  | _, _, 0 => ⟨none, 0, []⟩
  | attempt, retry_delay, remaining + 1 =>
    match call attempt with
    | .ok content => ⟨some (py_strip content), 1, []⟩
    | .err e =>
      if remaining == 0 then
        ⟨some ("Error generating email: " ++ e), 1, []⟩
      else
        let rest := attemptFrom call (attempt + 1) (retry_delay * 2) remaining
        ⟨rest.result, rest.calls + 1, retry_delay :: rest.sleeps⟩

/-- `generate_email`: returns `None` without any endpoint attempt when the
contact name is blank, otherwise runs the retry loop starting at attempt 0
with a 5-second delay.  The prompt-building fields are carried for fidelity
but do not influence the observable outcome modelled here. -/
def generate_email (company_name industry_focus contact_name position notes : Option String)
    (call : Nat → CallResult) : GenOutcome :=
  if isBlank contact_name then ⟨none, 0, []⟩
  else attemptFrom call 0 5 max_retries

/-- One input CSV row, fields as extracted by `row.get` in `main`. -/
structure Row where
  companyName : Option String
  industryFocus : Option String
  contactName : Option String
  position : Option String
  notes : Option String
deriving DecidableEq, Repr

/-- A row has a usable contact name (the negation of the skip test). -/
def hasContact (row : Row) : Bool :=
  !(isBlank row.contactName)

/-- One row of `output_data`: company name, contact name, email content. -/
structure OutputRow where
  companyName : Option String
  contactName : Option String
  emailContent : String
deriving DecidableEq, Repr

/-- The success test of `main`:
`if email_content and not email_content.startswith("Error generating email")`. -/
def successCheck : Option String → Bool
  | none => false
  | some s => !(s == "") && !(py_startswith s "Error generating email")

/-- Mutable state of `main`'s loop: the two counters and the output list,
plus instrumentation for the observable effects (number of `generate_email`
invocations, total endpoint attempts, and 0.5-second throttle sleeps). -/
structure RunState where
  total_contacts : Nat
  successful_emails : Nat
  output_data : List OutputRow
  clientCalls : Nat
  attemptCalls : Nat
  throttleSleeps : Nat
deriving DecidableEq, Repr

/-- The output row appended for a successful generation. -/
def mkOutputRow (row : Row) (email_content : String) : OutputRow :=
  ⟨row.companyName, row.contactName, email_content⟩

/-- One iteration of `main`'s `for index, row in df.iterrows()` loop:
skip blank contacts, bump `total_contacts`, fabricate a placeholder (and bump
`successful_emails`) in dry-run mode or invoke `generate_email` in live mode,
then apply the success test: on success bump `successful_emails`, append to
`output_data`, and (live mode only) sleep 0.5 seconds. -/
def processRow (call : Nat → CallResult) (dry_run : Bool) (row : Row)
    (st : RunState) : RunState :=
  if isBlank row.contactName then st
  else
    let st1 : RunState := { st with total_contacts := st.total_contacts + 1 }
    let step : Option String × RunState :=
      if dry_run then
        (some ("[DRY RUN] Sample email for " ++ (row.contactName.getD "")),
         { st1 with successful_emails := st1.successful_emails + 1 })
      else
        let g := generate_email row.companyName row.industryFocus
          row.contactName row.position row.notes call
        (g.result,
         { st1 with
            clientCalls := st1.clientCalls + 1,
            attemptCalls := st1.attemptCalls + g.calls })
    let email_content := step.1
    let st2 := step.2
    if successCheck email_content then
      { st2 with
        successful_emails := st2.successful_emails + 1,
        output_data := st2.output_data ++ [mkOutputRow row (email_content.getD "")],
        throttleSleeps :=
          if dry_run then st2.throttleSleeps else st2.throttleSleeps + 1 }
    else st2

/-- The whole row loop; `i` is the positional row index, used to select the
per-row endpoint oracle `api i`. -/
def processRows (api : Nat → Nat → CallResult) (dry_run : Bool) :
    List Row → Nat → RunState → RunState
  | [], _, st => st
  | row :: rest, i, st =>
      processRows api dry_run rest (i + 1) (processRow (api i) dry_run row st)

/-- `df = df.head(args.limit)` when a positive limit is configured. -/
def limitRows (limit : Nat) (rows : List Row) : List Row :=
  if limit > 0 then rows.take limit else rows

/-- Loop counters and list all start empty. -/
def initState : RunState := ⟨0, 0, [], 0, 0, 0⟩

/-- The processing core of `main`: apply the row limit, then fold the
per-row step over the rows from index 0. -/
def runMain (api : Nat → Nat → CallResult) (dry_run : Bool) (limit : Nat)
    (rows : List Row) : RunState :=
  processRows api dry_run (limitRows limit rows) 0 initState

/-- The printed run summary; `failed` is computed as
`total_contacts - successful_emails` in (unbounded) integer arithmetic,
exactly as Python does. -/
structure RunSummary where
  total : Nat
  successful : Nat
  failed : Int
deriving DecidableEq, Repr

/-- Build the summary `main` prints from the final loop state. -/
def summarize (st : RunState) : RunSummary :=
  ⟨st.total_contacts, st.successful_emails,
   (st.total_contacts : Int) - (st.successful_emails : Int)⟩

/-! ### Shared lemmas -/

/-- An output row built from a valid contact row. -/
def validOut (o : OutputRow) : Bool := !(isBlank o.contactName)

theorem py_startswith_append (p t : String) : py_startswith (p ++ t) p = true := by
  rw [py_startswith, String.data_append, List.isPrefixOf_iff_prefix]
  exact List.prefix_append _ _

theorem errMarker_startsWith (e : String) :
    py_startswith ("Error generating email: " ++ e) "Error generating email" = true := by
  have h : "Error generating email: " ++ e = "Error generating email" ++ (": " ++ e) := by
    rw [← String.append_assoc]
    rfl
  rw [h]
  exact py_startswith_append _ _

theorem successCheck_errMarker (e : String) :
    successCheck (some ("Error generating email: " ++ e)) = false := by
  simp [successCheck, errMarker_startsWith e]

theorem attemptFrom_succ (call : Nat → CallResult) (attempt delay remaining : Nat) :
    attemptFrom call attempt delay (remaining + 1) =
      match call attempt with
      | .ok content => ⟨some (py_strip content), 1, []⟩
      | .err e =>
        if remaining == 0 then ⟨some ("Error generating email: " ++ e), 1, []⟩
        else
          let rest := attemptFrom call (attempt + 1) (delay * 2) remaining
          ⟨rest.result, rest.calls + 1, delay :: rest.sleeps⟩ := by
  simp [attemptFrom]

theorem generate_email_two_failures_then_ok
    (company industry contact pos notes : Option String)
    (call : Nat → CallResult) (e0 e1 s : String)
    (hc : isBlank contact = false)
    (h0 : call 0 = .err e0) (h1 : call 1 = .err e1) (h2 : call 2 = .ok s) :
    generate_email company industry contact pos notes call =
      ⟨some (py_strip s), 3, [5, 10]⟩ := by
  have t1 : attemptFrom call 2 20 1 = ⟨some (py_strip s), 1, []⟩ := by
    refine (attemptFrom_succ call 2 20 0).trans ?_
    rw [h2]
  have t2 : attemptFrom call 1 10 2 = ⟨some (py_strip s), 2, [10]⟩ := by
    refine (attemptFrom_succ call 1 10 1).trans ?_
    rw [h1]
    simp [t1]
  have t3 : attemptFrom call 0 5 3 = ⟨some (py_strip s), 3, [5, 10]⟩ := by
    refine (attemptFrom_succ call 0 5 2).trans ?_
    rw [h0]
    simp [t2]
  simpa [generate_email, hc, max_retries] using t3

theorem generate_email_all_failures
    (company industry contact pos notes : Option String)
    (call : Nat → CallResult) (e : Nat → String)
    (hc : isBlank contact = false)
    (hf : ∀ n, call n = .err (e n)) :
    generate_email company industry contact pos notes call =
      ⟨some ("Error generating email: " ++ e 2), 3, [5, 10]⟩ := by
  have t1 : attemptFrom call 2 20 1 =
      ⟨some ("Error generating email: " ++ e 2), 1, []⟩ := by
    refine (attemptFrom_succ call 2 20 0).trans ?_
    rw [hf 2]
    simp
  have t2 : attemptFrom call 1 10 2 =
      ⟨some ("Error generating email: " ++ e 2), 2, [10]⟩ := by
    refine (attemptFrom_succ call 1 10 1).trans ?_
    rw [hf 1]
    simp [t1]
  have t3 : attemptFrom call 0 5 3 =
      ⟨some ("Error generating email: " ++ e 2), 3, [5, 10]⟩ := by
    refine (attemptFrom_succ call 0 5 2).trans ?_
    rw [hf 0]
    simp [t2]
  simpa [generate_email, hc, max_retries] using t3

theorem processRow_blank (call : Nat → CallResult) (dry : Bool) (row : Row)
    (st : RunState) (h : isBlank row.contactName = true) :
    processRow call dry row st = st := by
  simp [processRow, h]

theorem processRow_total (call : Nat → CallResult) (dry : Bool) (row : Row)
    (st : RunState) :
    (processRow call dry row st).total_contacts =
      st.total_contacts + (if hasContact row then 1 else 0) := by
  by_cases h : isBlank row.contactName
  · simp [processRow, hasContact, h]
  · by_cases hd : dry
    · by_cases hs : successCheck (some ("[DRY RUN] Sample email for " ++
        (row.contactName.getD ""))) <;>
        simp [processRow, hasContact, h, hd, hs]
    · by_cases hs : successCheck (generate_email row.companyName row.industryFocus
        row.contactName row.position row.notes call).result <;>
        simp [processRow, hasContact, h, hd, hs]

theorem processRow_all_valid (call : Nat → CallResult) (dry : Bool) (row : Row)
    (st : RunState) (h : st.output_data.all validOut = true) :
    (processRow call dry row st).output_data.all validOut = true := by
  by_cases hb : isBlank row.contactName
  · rw [processRow_blank _ _ _ _ hb]
    exact h
  · have hv : validOut (mkOutputRow row ((if dry then
        (some ("[DRY RUN] Sample email for " ++ (row.contactName.getD "")))
        else (generate_email row.companyName row.industryFocus
          row.contactName row.position row.notes call).result).getD "")) = true := by
      simp [validOut, mkOutputRow, hb]
    by_cases hd : dry
    · by_cases hs : successCheck (some ("[DRY RUN] Sample email for " ++
        (row.contactName.getD ""))) <;>
        simp_all [processRow, hb, hd, hs, validOut, mkOutputRow]
    · by_cases hs : successCheck (generate_email row.companyName row.industryFocus
        row.contactName row.position row.notes call).result <;>
        simp_all [processRow, hb, hd, hs, validOut, mkOutputRow]

theorem processRow_live_throttle (call : Nat → CallResult) (row : Row)
    (st : RunState) :
    (processRow call false row st).successful_emails + st.throttleSleeps =
      (processRow call false row st).throttleSleeps + st.successful_emails := by
  by_cases hb : isBlank row.contactName
  · rw [processRow_blank _ _ _ _ hb]
    omega
  · by_cases hs : successCheck (generate_email row.companyName row.industryFocus
      row.contactName row.position row.notes call).result <;>
      simp [processRow, hb, hs] <;> omega

theorem processRows_total (api : Nat → Nat → CallResult) (dry : Bool) :
    ∀ (rows : List Row) (i : Nat) (st : RunState),
      (processRows api dry rows i st).total_contacts =
        st.total_contacts + rows.countP hasContact := by
  intro rows
  induction rows with
  | nil => intro i st; simp [processRows]
  | cons row rest ih =>
    intro i st
    simp only [processRows]
    rw [ih, processRow_total, List.countP_cons]
    by_cases hc : hasContact row <;> simp [hc] <;> omega

theorem processRows_all_valid (api : Nat → Nat → CallResult) (dry : Bool) :
    ∀ (rows : List Row) (i : Nat) (st : RunState),
      st.output_data.all validOut = true →
      (processRows api dry rows i st).output_data.all validOut = true := by
  intro rows
  induction rows with
  | nil => intro i st h; simpa [processRows] using h
  | cons row rest ih =>
    intro i st h
    simp only [processRows]
    exact ih _ _ (processRow_all_valid _ _ _ _ h)

theorem processRows_live_throttle (api : Nat → Nat → CallResult) :
    ∀ (rows : List Row) (i : Nat) (st : RunState),
      (processRows api false rows i st).successful_emails + st.throttleSleeps =
        (processRows api false rows i st).throttleSleeps + st.successful_emails := by
  intro rows
  induction rows with
  | nil => intro i st; simp only [processRows]; omega
  | cons row rest ih =>
    intro i st
    simp only [processRows]
    have h1 := processRow_live_throttle (api i) row st
    have h2 := ih (i + 1) (processRow (api i) false row st)
    omega

theorem processRow_live_allfail (call : Nat → CallResult) (e : Nat → String)
    (hf : ∀ n, call n = .err (e n)) (row : Row) (st : RunState) :
    (processRow call false row st).output_data = st.output_data ∧
      (processRow call false row st).successful_emails = st.successful_emails := by
  by_cases hb : isBlank row.contactName
  · rw [processRow_blank _ _ _ _ hb]
    exact ⟨rfl, rfl⟩
  · have hb' : isBlank row.contactName = false := by simpa using hb
    have hg := generate_email_all_failures row.companyName row.industryFocus
      row.contactName row.position row.notes call e hb' hf
    constructor <;> simp [processRow, hb', hg, successCheck_errMarker]

theorem processRows_live_allfail (call : Nat → CallResult) (e : Nat → String)
    (hf : ∀ n, call n = .err (e n)) :
    ∀ (rows : List Row) (i : Nat) (st : RunState),
      (processRows (fun _ => call) false rows i st).output_data = st.output_data ∧
      (processRows (fun _ => call) false rows i st).successful_emails =
        st.successful_emails := by
  intro rows
  induction rows with
  | nil => intro i st; simp [processRows]
  | cons row rest ih =>
    intro i st
    simp only [processRows]
    have h1 := processRow_live_allfail call e hf row st
    have h2 := ih (i + 1) (processRow call false row st)
    exact ⟨h2.1.trans h1.1, h2.2.trans h1.2⟩

/-! ### Concrete fixtures used by witnesses and counterexamples -/

/-- A valid contact row. -/
def rowAlice : Row :=
  ⟨some "Acme Capital", some "Private Credit", some "Alice", some "CEO", none⟩

/-- A second valid contact row. -/
def rowBob : Row :=
  ⟨some "Bolt Partners", some "Private Equity", some "Bob", some "CFO", none⟩

/-- An endpoint oracle failing twice and then succeeding. -/
def twoFailCall : Nat → CallResult := fun n =>
  if n == 0 then .err "boom one" else if n == 1 then .err "boom two" else .ok "Hello"

/-- A per-row oracle whose first row always fails and later rows succeed. -/
def firstRowFailsApi : Nat → Nat → CallResult := fun i _ =>
  if i == 0 then .err "boom" else .ok "Hello"

/-! ### Claims -/

/-- C2: for every record with a non-empty contact name, if the external
generation call fails exactly 2 times and then succeeds, `generate_email`
performs exactly 3 call attempts, returns the (stripped) success value, and
performs exactly two backoff waits, of 5 and then 10 seconds. -/
theorem retry_two_failures_then_success
    (company industry contact pos notes : Option String)
    (call : Nat → CallResult) (e0 e1 s : String)
    (hc : isBlank contact = false)
    (h0 : call 0 = .err e0) (h1 : call 1 = .err e1) (h2 : call 2 = .ok s) :
    (generate_email company industry contact pos notes call).calls = 3 ∧
    (generate_email company industry contact pos notes call).result =
      some (py_strip s) ∧
    (generate_email company industry contact pos notes call).sleeps = [5, 10] := by
  rw [generate_email_two_failures_then_ok company industry contact pos notes
    call e0 e1 s hc h0 h1 h2]
  exact ⟨rfl, rfl, rfl⟩

/-- Witness for C2 at a concrete record and oracle. -/
theorem retry_two_failures_then_success_witness :
    (generate_email (some "Acme") (some "Credit") (some "Alice") (some "CEO")
      none twoFailCall).calls = 3 ∧
    (generate_email (some "Acme") (some "Credit") (some "Alice") (some "CEO")
      none twoFailCall).result = some "Hello" ∧
    (generate_email (some "Acme") (some "Credit") (some "Alice") (some "CEO")
      none twoFailCall).sleeps = [5, 10] := by
  have h := retry_two_failures_then_success (some "Acme") (some "Credit")
    (some "Alice") (some "CEO") none twoFailCall "boom one" "boom two" "Hello"
    (by decide) rfl rfl rfl
  have hs : py_strip "Hello" = "Hello" := by decide
  exact ⟨h.1, by rw [h.2.1, hs], h.2.2⟩

/-- C3: for every record with a non-empty contact name, if the external call
fails on every attempt, `generate_email` performs exactly 3 attempts and
returns (not raises) the error-marker string carrying the final failure text;
the caller's success test rejects that marker, so in a live run with an
always-failing endpoint no record reaches the output set while every valid
row is still processed and counted. -/
theorem retry_exhaustion_returns_marker
    (company industry contact pos notes : Option String)
    (call : Nat → CallResult) (e : Nat → String)
    (hc : isBlank contact = false) (hf : ∀ n, call n = .err (e n)) :
    (generate_email company industry contact pos notes call).calls = 3 ∧
    (generate_email company industry contact pos notes call).result =
      some ("Error generating email: " ++ e 2) ∧
    (∃ p, "Error generating email: " ++ e 2 = p ++ e 2) ∧
    successCheck (generate_email company industry contact pos notes call).result
      = false ∧
    (∀ (rows : List Row) (limit : Nat),
      (runMain (fun _ => call) false limit rows).output_data = [] ∧
      (runMain (fun _ => call) false limit rows).total_contacts =
        (limitRows limit rows).countP hasContact) := by
  have hg := generate_email_all_failures company industry contact pos notes
    call e hc hf
  refine ⟨by rw [hg], by rw [hg], ⟨"Error generating email: ", rfl⟩, ?_, ?_⟩
  · rw [hg]
    exact successCheck_errMarker (e 2)
  · intro rows limit
    constructor
    · have h := processRows_live_allfail call e hf (limitRows limit rows) 0 initState
      simpa [runMain, initState] using h.1
    · rw [runMain, processRows_total]
      simp [initState]

/-- Witness for C3 at a concrete record and an always-failing oracle. -/
theorem retry_exhaustion_returns_marker_witness :
    (generate_email (some "Acme") none (some "Alice") none none
      (fun _ => .err "boom")).calls = 3 ∧
    (generate_email (some "Acme") none (some "Alice") none none
      (fun _ => .err "boom")).result = some "Error generating email: boom" ∧
    successCheck (some "Error generating email: boom") = false ∧
    (runMain (fun _ _ => .err "boom") false 0 [rowAlice, rowBob]).output_data
      = [] ∧
    (runMain (fun _ _ => .err "boom") false 0 [rowAlice, rowBob]).total_contacts
      = 2 := by
  have h := retry_exhaustion_returns_marker (some "Acme") none (some "Alice")
    none none (fun _ => .err "boom") (fun _ => "boom") (by decide) (fun n => rfl)
  have hm : ("Error generating email: " ++ "boom") = "Error generating email: boom" := rfl
  refine ⟨h.1, by rw [h.2.1, hm], by rw [← hm]; exact h.2.2.2.1, ?_, ?_⟩
  · exact (h.2.2.2.2 [rowAlice, rowBob] 0).1
  · have ht := (h.2.2.2.2 [rowAlice, rowBob] 0).2
    simpa [limitRows, rowAlice, rowBob, hasContact, isBlank] using ht

/-- C10: for every input whose contact-name field is empty or missing,
`generate_email` returns `None` with zero endpoint attempts and zero backoff
sleeps, and the caller's success test treats `None` as a failure. -/
theorem blank_contact_returns_none
    (company industry contact pos notes : Option String)
    (call : Nat → CallResult) (h : isBlank contact = true) :
    generate_email company industry contact pos notes call = ⟨none, 0, []⟩ ∧
    successCheck (generate_email company industry contact pos notes call).result
      = false := by
  have hg : generate_email company industry contact pos notes call
      = ⟨none, 0, []⟩ := by
    simp [generate_email, h]
  refine ⟨hg, ?_⟩
  rw [hg]
  rfl

/-- Witness for C10 at the empty and the missing contact name. -/
theorem blank_contact_returns_none_witness :
    isBlank (some "") = true ∧ isBlank none = true ∧
    generate_email (some "Acme") none (some "") none none
      (fun _ => .ok "Hello") = ⟨none, 0, []⟩ ∧
    generate_email (some "Acme") none none none none
      (fun _ => .ok "Hello") = ⟨none, 0, []⟩ ∧
    successCheck none = false := by
  have h1 := blank_contact_returns_none (some "Acme") none (some "") none none
    (fun _ => .ok "Hello") (by decide)
  have h2 := blank_contact_returns_none (some "Acme") none none none none
    (fun _ => .ok "Hello") (by decide)
  exact ⟨by decide, by decide, h1.1, h2.1, rfl⟩

/-- C5: the run summary's total-contacts count equals the number of rows with
a non-empty contact name among the rows remaining after the limit is applied,
in both live and simulated mode. -/
theorem total_contacts_counts_valid_rows (api : Nat → Nat → CallResult)
    (dry : Bool) (limit : Nat) (rows : List Row) :
    (runMain api dry limit rows).total_contacts =
      (limitRows limit rows).countP hasContact := by
  rw [runMain, processRows_total]
  simp [initState]

/-- C6: the printed run summary always satisfies
successful + failed = total, because failed is computed as
total - successful in unbounded integer arithmetic (it can be negative in
dry-run mode, where every valid row is double-counted as successful). -/
theorem summary_counts_add_up (api : Nat → Nat → CallResult) (dry : Bool)
    (limit : Nat) (rows : List Row) :
    ((summarize (runMain api dry limit rows)).successful : Int) +
      (summarize (runMain api dry limit rows)).failed =
      ((summarize (runMain api dry limit rows)).total : Int) := by
  simp only [summarize]
  omega

/-- C7: a record whose contact-name field is empty or missing never appears
in the output set (every output row carries a non-blank contact name) and is
never counted in total-contacts (total counts exactly the non-blank rows). -/
theorem blank_rows_never_output_nor_counted (api : Nat → Nat → CallResult)
    (dry : Bool) (limit : Nat) (rows : List Row) :
    (runMain api dry limit rows).output_data.all validOut = true ∧
    (runMain api dry limit rows).total_contacts =
      (limitRows limit rows).countP hasContact := by
  constructor
  · exact processRows_all_valid api dry (limitRows limit rows) 0 initState rfl
  · rw [runMain, processRows_total]
    simp [initState]

/-- C4: in a live run, a processed record with a non-empty contact name is
counted as successful (and appended to the output set) if and only if the
returned value is non-empty and does not begin with the literal
"Error generating email"; otherwise nothing is counted or appended for it.
In particular any returned text beginning with that literal — even a
legitimate response — is classified as a failure. -/
theorem success_accounting_iff (call : Nat → CallResult) (row : Row)
    (st : RunState) (h : hasContact row = true) :
    ((processRow call false row st).successful_emails =
        st.successful_emails + 1 ↔
      successCheck (generate_email row.companyName row.industryFocus
        row.contactName row.position row.notes call).result = true) ∧
    ((processRow call false row st).output_data =
        st.output_data ++ [mkOutputRow row ((generate_email row.companyName
          row.industryFocus row.contactName row.position row.notes
          call).result.getD "")] ↔
      successCheck (generate_email row.companyName row.industryFocus
        row.contactName row.position row.notes call).result = true) ∧
    (successCheck (generate_email row.companyName row.industryFocus
        row.contactName row.position row.notes call).result = false →
      (processRow call false row st).successful_emails =
          st.successful_emails ∧
        (processRow call false row st).output_data = st.output_data) ∧
    (∀ s : String, successCheck (some s) = true ↔
      (s ≠ "" ∧ py_startswith s "Error generating email" = false)) ∧
    (∀ s : String, py_startswith s "Error generating email" = true →
      successCheck (some s) = false) := by
  have hb : isBlank row.contactName = false := by
    simpa [hasContact] using h
  refine ⟨?_, ?_, ?_, ?_, ?_⟩
  · by_cases hs : successCheck (generate_email row.companyName row.industryFocus
      row.contactName row.position row.notes call).result <;>
      simp [processRow, hb, hs]
  · by_cases hs : successCheck (generate_email row.companyName row.industryFocus
      row.contactName row.position row.notes call).result <;>
      simp [processRow, hb, hs]
  · intro hs
    simp [processRow, hb, hs]
  · intro s
    simp [successCheck]
  · intro s hp
    simp [successCheck, hp]

/-- Witness for C4 at a concrete record, oracle, and state. -/
theorem success_accounting_iff_witness :
    hasContact rowAlice = true ∧
    ((processRow (fun _ => .ok "Hello") false rowAlice initState).successful_emails =
        initState.successful_emails + 1 ↔
      successCheck (generate_email rowAlice.companyName rowAlice.industryFocus
        rowAlice.contactName rowAlice.position rowAlice.notes
        (fun _ => .ok "Hello")).result = true) ∧
    successCheck (some "Error generating email: oops") = false := by
  have h := success_accounting_iff (fun _ => .ok "Hello") rowAlice initState
    (by decide)
  exact ⟨by decide, h.1, h.2.2.2.2 "Error generating email: oops" (by decide)⟩

/-- C8: a positive row limit N restricts processing to exactly the first N
input rows, and the truncation happens before the contact-name skip filter:
running with limit N equals running without a limit on `rows.take N`, and
rows beyond the first N never influence the run regardless of contents. -/
theorem limit_truncates_before_filter (api : Nat → Nat → CallResult)
    (dry : Bool) (limit : Nat) (rows extra : List Row) (h : 0 < limit) :
    runMain api dry limit rows = runMain api dry 0 (rows.take limit) ∧
    (limit ≤ rows.length →
      runMain api dry limit (rows ++ extra) = runMain api dry limit rows) := by
  constructor
  · simp [runMain, limitRows, h]
  · intro hl
    simp [runMain, limitRows, h, List.take_append_of_le_length hl]

/-- Witness for C8 with limit 1 over two rows. -/
theorem limit_truncates_before_filter_witness :
    (0 < 1) ∧
    runMain (fun _ _ => .ok "Hello") true 1 [rowAlice, rowBob] =
      runMain (fun _ _ => .ok "Hello") true 0 [rowAlice] ∧
    runMain (fun _ _ => .ok "Hello") true 1 ([rowAlice] ++ [rowBob]) =
      runMain (fun _ _ => .ok "Hello") true 1 [rowAlice] := by
  refine ⟨by decide, ?_, ?_⟩
  · exact (limit_truncates_before_filter (fun _ _ => .ok "Hello") true 1
      [rowAlice, rowBob] [] (by decide)).1
  · exact (limit_truncates_before_filter (fun _ _ => .ok "Hello") true 1
      [rowAlice] [rowBob] (by decide)).2 (by decide)

/-- C9 counterexample: in a live run over two valid rows where the first
row's generation fails on every attempt and the second succeeds, both rows
are processed but only one 0.5-second throttle sleep occurs — the claim that
a fixed wait follows every processed record's call, failed ones included,
is false at this input. -/
theorem throttle_skipped_after_failure :
    (runMain firstRowFailsApi false 0 [rowAlice, rowBob]).total_contacts = 2 ∧
    (runMain firstRowFailsApi false 0 [rowAlice, rowBob]).clientCalls = 2 ∧
    (runMain firstRowFailsApi false 0 [rowAlice, rowBob]).throttleSleeps = 1 ∧
    ¬((runMain firstRowFailsApi false 0 [rowAlice, rowBob]).throttleSleeps =
      (runMain firstRowFailsApi false 0 [rowAlice, rowBob]).total_contacts) := by
  decide

/-- C9 as amended: in live mode the fixed 0.5-second inter-call delay occurs
exactly once per record counted successful (the sleep sits inside the success
branch); records whose generation failed incur no inter-call delay. -/
theorem throttle_equals_successes (api : Nat → Nat → CallResult)
    (limit : Nat) (rows : List Row) :
    (runMain api false limit rows).throttleSleeps =
      (runMain api false limit rows).successful_emails := by
  have h := processRows_live_throttle api (limitRows limit rows) 0 initState
  simp only [runMain, initState] at h ⊢
  omega

/-- C1: evaluation of the dry-run accounting slip at a concrete input.  With
one valid row in dry-run mode the Generation Client is never invoked (zero
client calls, zero endpoint attempts), but the row is counted successful
twice — once in the dry-run branch and again by the shared success test on
the fabricated placeholder — so the summary reports successful = 2 against
total = 1, and a failed count of -1, instead of successful = total. -/
theorem dry_run_double_counts :
    (runMain (fun _ _ => .err "unused") true 0 [rowAlice]).clientCalls = 0 ∧
    (runMain (fun _ _ => .err "unused") true 0 [rowAlice]).attemptCalls = 0 ∧
    (runMain (fun _ _ => .err "unused") true 0 [rowAlice]).total_contacts = 1 ∧
    (runMain (fun _ _ => .err "unused") true 0 [rowAlice]).successful_emails = 2 ∧
    (summarize (runMain (fun _ _ => .err "unused") true 0 [rowAlice])).failed
      = -1 := by
  decide
